import Mathlib

/-!
Shallow embedding of the change-detection monitoring loop of
`src/web_monitor.py` (functions `scrape_website`, `save_scrape_to_db`,
`get_last_snapshot`, `monitor_websites`).

Modelling decisions, each tied to the source:

* Python `str.strip()` (line 195) is `pyStrip`, trimming from both ends
  exactly the characters for which Python `str.isspace()` holds.
* The snapshot table (`save_scrape_to_db` inserts `(url, content,
  scraped_at)` with `datetime.now()`, `get_last_snapshot` selects
  `ORDER BY scraped_at DESC LIMIT 1`) is an append-only list of
  `(url, content)` rows: `datetime.now()` is strictly increasing across
  calls, so append order coincides with timestamp order and the latest
  snapshot for a url is the last matching row (`getLatest`).
* External effects are an oracle `Env`: the rows returned by
  `get_websites_from_db` for each cycle (a database error also yields `[]`,
  line 77), the result of `scrape_website` per (cycle, target index)
  (`none` models any non-200 status, network or parse fault, lines 89-94),
  whether `save_scrape_to_db` succeeds (its `except` path returns `False`
  and inserts nothing, lines 111-113), whether the `get_last_snapshot`
  query succeeds (its `except` path returns `None`, lines 128-130),
  whether the shared `monitoring_status["is_running"]` flag is observed
  cleared at the top of a target iteration (line 181), and whether a task
  cancellation is delivered at the `asyncio.sleep(60)` await (line 200) --
  the one await whose cancellation is not swallowed by a local
  `except Exception` handler.
* Time is a `clock : Nat` advanced by 60 at `asyncio.sleep(60)`;
  `datetime.now()` reads the clock.  `RunState` mirrors the
  `monitoring_status` dict.
* Side effects are recorded as an `Event` trace tagged with
  (cycle, target index): successful snapshot inserts, failed insert
  attempts, notifications sent by `send_change_alert`, and completed
  sleeps.
-/

/-- Characters removed by Python `str.strip()` at either end: the exact
`str.isspace()` set -- TAB, LF, VT, FF, CR, the file/group/record/unit
separators U+001C-U+001F, SPACE, NEL U+0085, NBSP U+00A0, Ogham space mark
U+1680, the typographic spaces U+2000-U+200A, the line and paragraph
separators U+2028 and U+2029, narrow NBSP U+202F, medium mathematical
space U+205F, and ideographic space U+3000. -/
def pyWs (c : Char) : Bool :=
  let n := c.toNat
  n = 0x09 || n = 0x0a || n = 0x0b || n = 0x0c || n = 0x0d ||
  n = 0x1c || n = 0x1d || n = 0x1e || n = 0x1f || n = 0x20 ||
  n = 0x85 || n = 0xa0 || n = 0x1680 ||
  (0x2000 ≤ n && n ≤ 0x200a) ||
  n = 0x2028 || n = 0x2029 || n = 0x202f || n = 0x205f || n = 0x3000

/-- Both-ends trim on the character list underlying a string. -/
def pyStripList (l : List Char) : List Char :=
  ((l.dropWhile pyWs).reverse.dropWhile pyWs).reverse

/-- Python `s.strip()` as used in the comparison on line 195. -/
def pyStrip (s : String) : String :=
  String.mk (pyStripList s.toList)

/-- One row of the `websites` table: `SELECT url, email, phone` (line 69). -/
structure Target where
  url : String
  email : String
  phone : Option String
deriving DecidableEq, Repr

/-- The `monitoring_status` dict (lines 57-62), timestamps as clock values. -/
structure RunState where
  is_running : Bool
  started_at : Option Nat
  current_cycle : Nat
  last_check : Option Nat
deriving DecidableEq, Repr

/-- Mutable state threaded through the loop: the snapshot table in append
order, the clock, and the shared run-state dict. -/
structure MState where
  store : List (String × String)
  clock : Nat
  rs : RunState
deriving DecidableEq, Repr

/-- Observable side effects of one run, tagged with (cycle, target index). -/
inductive Event where
  | saved (c i : Nat) (url content : String)
  | saveFailed (c i : Nat) (url : String)
  | notified (c i : Nat) (email url : String)
  | slept (c i : Nat)
deriving DecidableEq, Repr

/-- Recognises notification events in a trace. -/
def isNotifiedEv : Event → Bool
  | Event.notified _ _ _ _ => true
  | _ => false

/-- Outcome of the HTTP GET inside `scrape_website`: a response with a
status code and body, or a network-level fault. -/
inductive HttpResult where
  | response (status : Nat) (body : String)
  | fetchFault
deriving DecidableEq, Repr

/-- The `scrape_website` function (lines 79-94): on status 200 it returns the
visible text extracted from the body (`soup.get_text()`, modelled by the
abstract extraction function `get_text`); any other status or a fault
returns `None`. -/
def scrape_website (get_text : String → String) (r : HttpResult) : Option String :=
  match r with
  | HttpResult.response 200 body => some (get_text body)
  | HttpResult.response _ _ => none
  | HttpResult.fetchFault => none

/-- The `get_last_snapshot` query (lines 115-127): latest row for exactly
this url, i.e. the last matching row of the append-ordered table. -/
def getLatest (store : List (String × String)) (url : String) : Option String :=
  match store with
  | [] => none
  | (u, content) :: rest =>
    match getLatest rest url with
    | some c => some c
    | none => if u = url then some content else none

/-- The guard on line 195:
`if previous_content and previous_content.strip() != current_content.strip()`.
`previous_content` is falsy when `None` or the empty string. -/
def shouldNotify (previous : Option String) (current : String) : Bool :=
  match previous with
  | none => false
  | some prev => prev != "" && pyStrip prev != pyStrip current

/-- Oracle for all external effects, indexed by cycle number (1-based) and
target index within the cycle. -/
structure Env where
  websites : Nat → List Target
  fetch : Nat → Nat → Option String
  saveOk : Nat → Nat → Bool
  getOk : Nat → Nat → Bool
  stopRequested : Nat → Nat → Bool
  cancelAt : Nat → Nat → Bool

/-- Body of one target iteration (lines 185-200), after the stop-flag check:
set `last_check` to now, scrape, skip on falsy content (`None` or `""`,
line 189), insert the snapshot (result ignored by the caller, line 192),
re-query the latest snapshot (line 193, after the insert), notify on the
line-195 guard, then sleep 60 (where a cancellation may be delivered).
Returns the new state, this iteration's events, and whether the iteration
was cancelled. -/
def processTarget (c i : Nat) (t : Target) (fetched : Option String)
    (saveOk getOk cancelRequested : Bool) (st : MState) : MState × List Event × Bool :=
  let st1 : MState := { st with rs := { st.rs with last_check := some st.clock } }
  match fetched with
  | none => (st1, [], false)
  | some content =>
    if content = "" then (st1, [], false)
    else
      let st2 : MState :=
        if saveOk then { st1 with store := st1.store ++ [(t.url, content)] } else st1
      let evSave : Event :=
        if saveOk then Event.saved c i t.url content else Event.saveFailed c i t.url
      let previous : Option String := if getOk then getLatest st2.store t.url else none
      let evsNotify : List Event :=
        if shouldNotify previous content then [Event.notified c i t.email t.url] else []
      if cancelRequested then (st2, evSave :: evsNotify, true)
      else ({ st2 with clock := st2.clock + 60 }, evSave :: (evsNotify ++ [Event.slept c i]), false)

/-- How the `for` loop over targets ends: normally, by the `return` on
line 183 (stop flag observed cleared), or by a cancellation. -/
inductive TRes where
  | normal
  | stopped
  | cancelled
deriving DecidableEq, Repr

/-- The `for url, email, phone in websites` loop (lines 180-200): at the top
of each iteration the run flag is checked (line 181, `return` on line 183),
then the iteration body runs. -/
def runTargets (env : Env) (c : Nat) : Nat → List Target → MState → MState × List Event × TRes
  | _, [], st => (st, [], TRes.normal)
  | i, t :: rest, st =>
    if env.stopRequested c i then (st, [], TRes.stopped)
    else
      match processTarget c i t (env.fetch c i) (env.saveOk c i) (env.getOk c i) (env.cancelAt c i) st with
      | (st1, evs, true) => (st1, evs, TRes.cancelled)
      | (st1, evs, false) =>
        let r := runTargets env c (i + 1) rest st1
        (r.1, evs ++ r.2.1, r.2.2)

/-- How the whole loop ends: the `while` guard exhausted after cycle 10,
the `break` on an empty target list (line 178), the `return` on stop, or a
propagated cancellation. -/
inductive ExitKind where
  | completed
  | emptyTargets
  | stopped
  | cancelled
deriving DecidableEq, Repr

/-- The `while cycle < 10` loop (lines 170-202).  `remaining` is the fuel
`10 - cycle` and `cycle` the Python loop counter before the increment on
line 171; each pass sets `current_cycle`, reads the target list, breaks if
it is empty, and otherwise runs the target loop. -/
def loopCycles (env : Env) : Nat → Nat → MState → MState × List Event × ExitKind
  | 0, _, st => (st, [], ExitKind.completed)
  | remaining + 1, cycle, st =>
    let c := cycle + 1
    let st1 : MState := { st with rs := { st.rs with current_cycle := c } }
    if (env.websites c).isEmpty then (st1, [], ExitKind.emptyTargets)
    else
      match runTargets env c 0 (env.websites c) st1 with
      | (st2, evs, TRes.stopped) => (st2, evs, ExitKind.stopped)
      | (st2, evs, TRes.cancelled) => (st2, evs, ExitKind.cancelled)
      | (st2, evs, TRes.normal) =>
        let r := loopCycles env remaining c st2
        (r.1, evs ++ r.2.1, r.2.2)

/-- The `monitor_websites` coroutine (lines 162-206): the `try` body sets
the run flag, `started_at` and `current_cycle := 0` (lines 165-167) and
runs the cycle loop; the `finally` on lines 205-206 clears the run flag on
every exit path, including the stop `return` and a cancellation. -/
def monitor_websites (env : Env) (st0 : MState) : MState × List Event × ExitKind :=
  let stStart : MState :=
    { st0 with rs :=
      { is_running := true
        started_at := some st0.clock
        current_cycle := 0
        last_check := st0.rs.last_check } }
  let r := loopCycles env 10 0 stStart
  ({ r.1 with rs := { r.1.rs with is_running := false } }, r.2.1, r.2.2)

/-- A single monitored target used by the concrete runs below. -/
def tU : Target := { url := "u", email := "e", phone := none }

/-- Initial state: empty snapshot table, clock 0, idle run-state. -/
def mst0 : MState :=
  { store := [], clock := 0
    rs := { is_running := false, started_at := none, current_cycle := 0, last_check := none } }

/-- Run exhibiting the write-before-read comparison: one target, fetches
"A" then "B" on cycles 1 and 2, all database operations succeed, the
target list is empty from cycle 3 on. -/
def envC1 : Env :=
  { websites := fun c => if c ≤ 2 then [tU] else []
    fetch := fun c i =>
      if c = 1 ∧ i = 0 then some "A"
      else if c = 2 ∧ i = 0 then some "B"
      else none
    saveOk := fun _ _ => true
    getOk := fun _ _ => true
    stopRequested := fun _ _ => false
    cancelAt := fun _ _ => false }

/-- Run with a failing snapshot write: fetch "B" on cycle 1 (write
succeeds), then "A" on cycles 2 and 3 (writes fail), empty list after. -/
def envC5 : Env :=
  { websites := fun c => if c ≤ 3 then [tU] else []
    fetch := fun c i =>
      if c = 1 ∧ i = 0 then some "B"
      else if (c = 2 ∨ c = 3) ∧ i = 0 then some "A"
      else none
    saveOk := fun c i => c = 1 ∧ i = 0
    getOk := fun _ _ => true
    stopRequested := fun _ _ => false
    cancelAt := fun _ _ => false }

/-- Run where the only target's fetch fails on cycle 1 and the target list
is empty from cycle 2 on. -/
def envC9 : Env :=
  { websites := fun c => if c = 1 then [tU] else []
    fetch := fun _ _ => none
    saveOk := fun _ _ => true
    getOk := fun _ _ => true
    stopRequested := fun _ _ => false
    cancelAt := fun _ _ => false }

/-- Run that is never stopped or cancelled, with a constant one-target
list whose fetches all fail: the loop exhausts its 10 cycles. -/
def envW : Env :=
  { websites := fun _ => [tU]
    fetch := fun _ _ => none
    saveOk := fun _ _ => true
    getOk := fun _ _ => true
    stopRequested := fun _ _ => false
    cancelAt := fun _ _ => false }

/-- Run whose target list is empty on every cycle. -/
def envE : Env :=
  { websites := fun _ => []
    fetch := fun _ _ => none
    saveOk := fun _ _ => true
    getOk := fun _ _ => true
    stopRequested := fun _ _ => false
    cancelAt := fun _ _ => false }

/-- Mid-run state whose snapshot table already holds "B" for url "u". -/
def stC8 : MState :=
  { store := [("u", "B")], clock := 0
    rs := { is_running := true, started_at := some 0, current_cycle := 1, last_check := none } }

/-- Run in which the stop flag is observed cleared at every boundary. -/
def envS : Env :=
  { websites := fun _ => [tU]
    fetch := fun _ _ => none
    saveOk := fun _ _ => true
    getOk := fun _ _ => true
    stopRequested := fun _ _ => true
    cancelAt := fun _ _ => false }

theorem pyStripList_append_ws (l : List Char) (c : Char) (h : pyWs c = true) :
    pyStripList (l ++ [c]) = pyStripList l := by
  induction l with
  | nil => simp [pyStripList, List.dropWhile, h]
  | cons x xs ih =>
    by_cases hx : pyWs x
    · simp only [pyStripList, List.cons_append, List.dropWhile_cons, hx, if_true] at ih ⊢
      exact ih
    · simp [pyStripList, List.dropWhile_cons, hx, h, List.reverse_append]

theorem pyStrip_append_ws (s : String) (c : Char) (h : pyWs c = true) :
    pyStrip (s ++ String.mk [c]) = pyStrip s := by
  have hd : (s ++ String.mk [c]).toList = s.toList ++ [c] := rfl
  simp only [pyStrip, hd, pyStripList_append_ws s.toList c h]

theorem getLatest_append_self (l : List (String × String)) (u c : String) :
    getLatest (l ++ [(u, c)]) u = some c := by
  induction l with
  | nil => simp [getLatest]
  | cons p rest ih => simp [getLatest, ih]

theorem shouldNotify_of_strip_eq (prev cur : String) (h : pyStrip prev = pyStrip cur) :
    shouldNotify (some prev) cur = false := by
  simp [shouldNotify, h]

theorem notify_filter_saveOk (c i : Nat) (t : Target) (cur : String)
    (gOk ca : Bool) (st : MState) :
    ((processTarget c i t (some cur) true gOk ca st).2.1).filter isNotifiedEv = [] := by
  by_cases hcur : cur = ""
  · simp [processTarget, hcur]
  · cases gOk <;> cases ca <;>
      simp [processTarget, hcur, getLatest_append_self, shouldNotify, isNotifiedEv]

theorem processTarget_not_cancelled (c i : Nat) (t : Target) (fetched : Option String)
    (sOk gOk : Bool) (st : MState) :
    (processTarget c i t fetched sOk gOk false st).2.2 = false := by
  cases fetched with
  | none => rfl
  | some cur =>
    by_cases hcur : cur = "" <;> simp [processTarget, hcur]

theorem processTarget_cycle (c i : Nat) (t : Target) (fetched : Option String)
    (sOk gOk ca : Bool) (st : MState) :
    (processTarget c i t fetched sOk gOk ca st).1.rs.current_cycle = st.rs.current_cycle := by
  cases fetched with
  | none => rfl
  | some cur =>
    by_cases hcur : cur = "" <;> cases ca <;> cases sOk <;> simp [processTarget, hcur]

theorem runTargets_normal (env : Env) (c : Nat)
    (hstop : ∀ j, env.stopRequested c j = false)
    (hcan : ∀ j, env.cancelAt c j = false) :
    ∀ (ws : List Target) (i : Nat) (st : MState),
      (runTargets env c i ws st).2.2 = TRes.normal ∧
      (runTargets env c i ws st).1.rs.current_cycle = st.rs.current_cycle := by
  intro ws
  induction ws with
  | nil => intro i st; exact ⟨rfl, rfl⟩
  | cons t rest ih =>
    intro i st
    rcases hp : processTarget c i t (env.fetch c i) (env.saveOk c i) (env.getOk c i)
        (env.cancelAt c i) st with ⟨st1, evs, b⟩
    have hb : b = false := by
      have := processTarget_not_cancelled c i t (env.fetch c i) (env.saveOk c i)
        (env.getOk c i) st
      rw [hcan i] at hp
      rw [hp] at this
      exact this
    subst hb
    have hcyc : st1.rs.current_cycle = st.rs.current_cycle := by
      have := processTarget_cycle c i t (env.fetch c i) (env.saveOk c i) (env.getOk c i)
        (env.cancelAt c i) st
      rw [hp] at this
      exact this
    have hrec := ih (i + 1) st1
    simp only [runTargets, hstop i, if_false, hp, Bool.false_eq_true]
    exact ⟨hrec.1, hrec.2.trans hcyc⟩

theorem loopCycles_completed (env : Env)
    (hstop : ∀ c j, env.stopRequested c j = false)
    (hcan : ∀ c j, env.cancelAt c j = false) :
    ∀ (remaining cycle : Nat) (st : MState),
      (∀ c, cycle < c → c ≤ cycle + remaining → (env.websites c).isEmpty = false) →
      (loopCycles env remaining cycle st).2.2 = ExitKind.completed ∧
      (loopCycles env remaining cycle st).1.rs.current_cycle =
        (if remaining = 0 then st.rs.current_cycle else cycle + remaining) := by
  intro remaining
  induction remaining with
  | zero => intro cycle st _; exact ⟨rfl, rfl⟩
  | succ r ih =>
    intro cycle st hw
    have hws : (env.websites (cycle + 1)).isEmpty = false :=
      hw (cycle + 1) (by omega) (by omega)
    rcases hrt : runTargets env (cycle + 1) 0 (env.websites (cycle + 1))
        { st with rs := { st.rs with current_cycle := cycle + 1 } } with ⟨st2, evs, tr⟩
    have hnorm := runTargets_normal env (cycle + 1) (hstop (cycle + 1)) (hcan (cycle + 1))
      (env.websites (cycle + 1)) 0
      { st with rs := { st.rs with current_cycle := cycle + 1 } }
    rw [hrt] at hnorm
    have htr : tr = TRes.normal := hnorm.1
    subst htr
    have hcyc2 : st2.rs.current_cycle = cycle + 1 := hnorm.2
    have hrec := ih (cycle + 1) st2 (fun c h1 h2 => hw c (by omega) (by omega))
    simp only [loopCycles, hws, Bool.false_eq_true, if_false, hrt]
    refine ⟨hrec.1, ?_⟩
    rw [hrec.2]
    by_cases hr : r = 0
    · subst hr; simp [hcyc2]
    · simp only [hr, if_false, Nat.succ_ne_zero]
      omega

theorem loopCycles10_stop_head (env : Env) (st : MState) (t : Target) (rest : List Target)
    (hws : env.websites 1 = t :: rest) (hstop : env.stopRequested 1 0 = true) :
    loopCycles env 10 0 st =
      ({ st with rs := { st.rs with current_cycle := 1 } }, [], ExitKind.stopped) := by
  show loopCycles env (9 + 1) 0 st = _
  simp [loopCycles, hws, runTargets, hstop]

/-- C1: the claim requires a read-before-write comparison and exactly one
notification per trimmed-different transition, but the code inserts the
new snapshot (line 192) before querying the latest one (line 193), so the
comparison is against the just-written row.  Evaluating the run whose
single target fetches "A" on cycle 1 and "B" on cycle 2 with every
database operation succeeding: the contents are trimmed-different, yet the
trace holds no notification at all. -/
theorem claim_C1 :
    pyStrip "A" ≠ pyStrip "B" ∧
    ((monitor_websites envC1 mst0).2.1).filter isNotifiedEv = [] := by
  decide

/-- C2: the monitoring loop always terminates: with no stop and no
cancellation and a non-empty target list on every cycle it exits with the
completed kind after exactly 10 cycles and the run flag cleared; a cycle
whose target-list read is empty ends the whole loop at once with the
emptyTargets exit; a stop flag observed at a target boundary ends the
target loop there. -/
theorem claim_C2 :
    (∀ (env : Env) (st0 : MState),
      (∀ c j, env.stopRequested c j = false) →
      (∀ c j, env.cancelAt c j = false) →
      (∀ c, 0 < c → c ≤ 10 → (env.websites c).isEmpty = false) →
      (monitor_websites env st0).2.2 = ExitKind.completed ∧
      (monitor_websites env st0).1.rs.current_cycle = 10 ∧
      (monitor_websites env st0).1.rs.is_running = false) ∧
    (∀ (env : Env) (r cycle : Nat) (st : MState),
      (env.websites (cycle + 1)).isEmpty = true →
      loopCycles env (r + 1) cycle st =
        ({ st with rs := { st.rs with current_cycle := cycle + 1 } }, [], ExitKind.emptyTargets)) ∧
    (∀ (env : Env) (c i : Nat) (t : Target) (rest : List Target) (st : MState),
      env.stopRequested c i = true →
      runTargets env c i (t :: rest) st = (st, [], TRes.stopped)) := by
  refine ⟨?_, ?_, ?_⟩
  · intro env st0 hstop hcan hw
    have h := loopCycles_completed env hstop hcan 10 0
      { st0 with rs :=
        { is_running := true
          started_at := some st0.clock
          current_cycle := 0
          last_check := st0.rs.last_check } }
      (fun c h1 h2 => hw c h1 (by omega))
    refine ⟨?_, ?_, rfl⟩
    · simpa [monitor_websites] using h.1
    · simpa [monitor_websites] using h.2
  · intro env r cycle st h
    simp [loopCycles, h]
  · intro env c i t rest st h
    simp [runTargets, h]

/-- C2 witness: the never-stopped constant-target run completes with cycle
counter 10 and the flag cleared; the empty-list run exits at once with the
emptyTargets kind; a stop observed at the first boundary ends the target
loop with no events. -/
theorem claim_C2_witness :
    ((monitor_websites envW mst0).2.2 = ExitKind.completed ∧
     (monitor_websites envW mst0).1.rs.current_cycle = 10 ∧
     (monitor_websites envW mst0).1.rs.is_running = false) ∧
    loopCycles envE 10 0 mst0 =
      ({ mst0 with rs := { mst0.rs with current_cycle := 1 } }, [], ExitKind.emptyTargets) ∧
    runTargets envS 1 0 [tU] mst0 = (mst0, [], TRes.stopped) :=
  ⟨claim_C2.1 envW mst0 (fun _ _ => rfl) (fun _ _ => rfl) (fun _ _ _ => rfl),
   claim_C2.2.1 envE 9 0 mst0 rfl,
   claim_C2.2.2 envS 1 0 tU [] mst0 rfl⟩

/-- C3: a cleared run flag observed at a target boundary exits the target
loop right there with no state change and no events; at top level, a stop
observed at the first boundary leaves the snapshot store untouched,
produces an empty trace, exits with the stopped kind, and the flag ends
false. -/
theorem claim_C3 :
    (∀ (env : Env) (c i : Nat) (t : Target) (rest : List Target) (st : MState),
      env.stopRequested c i = true →
      runTargets env c i (t :: rest) st = (st, [], TRes.stopped)) ∧
    (∀ (env : Env) (st0 : MState),
      env.stopRequested 1 0 = true →
      (env.websites 1).isEmpty = false →
      (monitor_websites env st0).1.store = st0.store ∧
      (monitor_websites env st0).2.1 = [] ∧
      (monitor_websites env st0).2.2 = ExitKind.stopped ∧
      (monitor_websites env st0).1.rs.is_running = false) := by
  constructor
  · intro env c i t rest st h
    simp [runTargets, h]
  · intro env st0 hstop hws
    rcases hcons : env.websites 1 with _ | ⟨t, rest⟩
    · rw [hcons] at hws; simp at hws
    · have h10 := loopCycles10_stop_head env
        { st0 with rs :=
          { is_running := true
            started_at := some st0.clock
            current_cycle := 0
            last_check := st0.rs.last_check } } t rest hcons hstop
      exact ⟨by simp [monitor_websites, h10], by simp [monitor_websites, h10],
        by simp [monitor_websites, h10], rfl⟩

/-- C3 witness: on the always-stopped one-target run, the store is
untouched, the trace is empty, the exit kind is stopped and the flag ends
false; the target loop exits at the boundary unchanged. -/
theorem claim_C3_witness :
    ((monitor_websites envS mst0).1.store = mst0.store ∧
     (monitor_websites envS mst0).2.1 = [] ∧
     (monitor_websites envS mst0).2.2 = ExitKind.stopped ∧
     (monitor_websites envS mst0).1.rs.is_running = false) ∧
    runTargets envS 2 0 [tU] mst0 = (mst0, [], TRes.stopped) :=
  ⟨claim_C3.2 envS mst0 rfl rfl, claim_C3.1 envS 2 0 tU [] mst0 rfl⟩

/-- C4: on every exit path of the monitoring loop -- cycle-budget
exhaustion, empty target list, external stop, or a cancellation delivered
inside the loop -- the run flag is false afterwards, set by the `finally`
block (lines 205-206) as the last action of the loop. -/
theorem claim_C4 (env : Env) (st0 : MState) :
    (monitor_websites env st0).1.rs.is_running = false := rfl

/-- C5 counterexample: on envC5 the single target's fetches in cycles 2
and 3 are both "A" (trimmed-equal consecutive fetches), yet the cycle-3
iteration sends a notification: its snapshot write failed, so the line-193
re-query returned the "B" stored in cycle 1 and the line-195 guard fired. -/
theorem claim_C5_cex :
    envC5.fetch 2 0 = some "A" ∧ envC5.fetch 3 0 = some "A" ∧
    Event.notified 3 0 "e" "u" ∈ (monitor_websites envC5 mst0).2.1 := by
  decide

/-- C5 (amended): the change test is invariant under leading/trailing
whitespace -- trim-equal previous/current contents are treated as
unchanged, a difference only in one trailing `str.isspace()` character
(newline, no-break space, ...) trims away, and an embedded space makes
the guard fire -- and an iteration whose snapshot write succeeds never
notifies (the post-write re-query returns the just-written content), so
two consecutive trim-equal fetches with a successful second write yield
no notification; when that write fails the comparison instead uses the
most recent successfully stored snapshot, which can notify. -/
theorem claim_C5 :
    (∀ prev cur : String, pyStrip prev = pyStrip cur → shouldNotify (some prev) cur = false) ∧
    (∀ (s : String) (c : Char), pyWs c = true → pyStrip (s ++ String.mk [c]) = pyStrip s) ∧
    shouldNotify (some "ab") "a b" = true ∧
    (∀ (c i : Nat) (t : Target) (cur : String) (gOk ca : Bool) (st : MState),
      ((processTarget c i t (some cur) true gOk ca st).2.1).filter isNotifiedEv = []) :=
  ⟨shouldNotify_of_strip_eq, pyStrip_append_ws, by decide, notify_filter_saveOk⟩

/-- C5 witness: a trailing no-break-space difference and a trailing-space
difference are both treated as unchanged, the trailing-newline identity
holds on a concrete string, and the successful-write iteration on a
concrete state notifies nothing. -/
theorem claim_C5_witness :
    shouldNotify (some ("A" ++ "\u00A0")) "A" = false ∧
    shouldNotify (some "x ") "x" = false ∧
    pyStrip ("hi" ++ String.mk ['\n']) = pyStrip "hi" ∧
    ((processTarget 1 0 tU (some "A") true true false stC8).2.1).filter isNotifiedEv = [] :=
  ⟨claim_C5.1 ("A" ++ "\u00A0") "A" (by decide),
   claim_C5.1 "x " "x" (by decide),
   claim_C5.2.1 "hi" '\n' (by decide),
   claim_C5.2.2.2 1 0 tU "A" true false stC8⟩

/-- C6: with no stored snapshot for the target's url, a target iteration
never notifies -- whatever the fetched content and whether the snapshot
write succeeds or fails: on a successful write the re-query returns the
just-written content (trim-equal to itself), on a failed write it returns
nothing. -/
theorem claim_C6 (c i : Nat) (t : Target) (fetched : Option String)
    (sOk gOk ca : Bool) (st : MState) (h : getLatest st.store t.url = none) :
    ((processTarget c i t fetched sOk gOk ca st).2.1).filter isNotifiedEv = [] := by
  cases fetched with
  | none => rfl
  | some cur =>
    cases sOk with
    | true => exact notify_filter_saveOk c i t cur gOk ca st
    | false =>
      by_cases hcur : cur = ""
      · simp [processTarget, hcur]
      · cases gOk <;> cases ca <;>
          simp [processTarget, hcur, h, shouldNotify, isNotifiedEv]

/-- C6 witness: the empty-store state with a failed write and a concrete
fetched content produces no notification. -/
theorem claim_C6_witness :
    ((processTarget 1 0 tU (some "hello") false true false mst0).2.1).filter isNotifiedEv = [] :=
  claim_C6 1 0 tU (some "hello") false true false mst0 rfl

/-- C7: an iteration whose fetch fails only sets `last_check` to the
current clock (done before the fetch attempt, line 186): the store, the
clock and everything else are unchanged, no events are produced, and the
iteration is not cancelled. -/
theorem claim_C7 (c i : Nat) (t : Target) (sOk gOk ca : Bool) (st : MState) :
    processTarget c i t none sOk gOk ca st =
      ({ st with rs := { st.rs with last_check := some st.clock } }, [], false) := rfl

/-- C8 counterexample: the loop ignores `save_scrape_to_db`'s failure
result (line 192); with "B" already stored for the url and "A" fetched,
the failed-write iteration still performs the comparison and sends a
notification, against the claimed skip. -/
theorem claim_C8_cex :
    Event.notified 1 0 "e" "u" ∈ (processTarget 1 0 tU (some "A") false true false stC8).2.1 := by
  decide

/-- C8 (amended): when the snapshot write fails the iteration is not
skipped: the store is unchanged, the latest stored snapshot is still read
and compared, a notification is sent exactly when the line-195 guard holds
of it, and the iteration ends normally so the loop continues with the next
target. -/
theorem claim_C8 (c i : Nat) (t : Target) (cur : String) (gOk : Bool) (st : MState)
    (hcur : cur ≠ "") :
    processTarget c i t (some cur) false gOk false st =
      ({ st with clock := st.clock + 60,
                 rs := { st.rs with last_check := some st.clock } },
       Event.saveFailed c i t.url ::
         ((if shouldNotify (if gOk then getLatest st.store t.url else none) cur
           then [Event.notified c i t.email t.url] else []) ++ [Event.slept c i]),
       false) := by
  simp [processTarget, hcur]

/-- C8 witness: the failed-write iteration on the concrete "B"-holding
state compares against "B" and emits the notification. -/
theorem claim_C8_witness :
    processTarget 1 0 tU (some "A") false true false stC8 =
      ({ stC8 with clock := stC8.clock + 60,
                   rs := { stC8.rs with last_check := some stC8.clock } },
       Event.saveFailed 1 0 tU.url ::
         ((if shouldNotify (if true then getLatest stC8.store tU.url else none) "A"
           then [Event.notified 1 0 tU.email tU.url] else []) ++ [Event.slept 1 0]),
       false) :=
  claim_C8 1 0 tU "A" true stC8 (by decide)

/-- C9 counterexample: on envC9 the single target's fetch fails and the
`continue` on line 190 jumps past the sleep on line 200: the one-target
cycle finishes with the clock unchanged and no sleep in the trace, so it
does not take at least 60 time-units. -/
theorem claim_C9_cex :
    (monitor_websites envC9 mst0).1.clock = mst0.clock ∧
    (monitor_websites envC9 mst0).2.1 = [] := by
  decide

/-- C9 (amended): only a target iteration that reaches the snapshot stage
(fetch returned non-empty content) and is not cancelled waits the fixed 60
time-units before the next target; an iteration whose fetch failed
proceeds immediately with the clock unchanged and no sleep recorded. -/
theorem claim_C9 :
    (∀ (c i : Nat) (t : Target) (cur : String) (sOk gOk : Bool) (st : MState), cur ≠ "" →
      (processTarget c i t (some cur) sOk gOk false st).1.clock = st.clock + 60 ∧
      Event.slept c i ∈ (processTarget c i t (some cur) sOk gOk false st).2.1) ∧
    (∀ (c i : Nat) (t : Target) (sOk gOk ca : Bool) (st : MState),
      (processTarget c i t none sOk gOk ca st).1.clock = st.clock ∧
      (processTarget c i t none sOk gOk ca st).2.1 = []) := by
  constructor
  · intro c i t cur sOk gOk st hcur
    cases sOk <;> simp [processTarget, hcur]
  · intro c i t sOk gOk ca st
    exact ⟨rfl, rfl⟩

/-- C9 witness: the successful-fetch iteration on the initial state
advances the clock by 60 and records the sleep. -/
theorem claim_C9_witness :
    (processTarget 1 0 tU (some "A") true true false mst0).1.clock = mst0.clock + 60 ∧
    Event.slept 1 0 ∈ (processTarget 1 0 tU (some "A") true true false mst0).2.1 :=
  claim_C9.1 1 0 tU "A" true true mst0 (by decide)

/-- C10: a fetch returning HTTP status 200 yields the extracted visible
text, so an empty extraction yields the empty string; and the loop's falsy
test on line 189 treats the empty string exactly like an absent fetch: the
iteration is identical -- same state, no snapshot, no comparison, no
notification. -/
theorem claim_C10 :
    (∀ (gt : String → String) (body : String),
      scrape_website gt (HttpResult.response 200 body) = some (gt body)) ∧
    (∀ (c i : Nat) (t : Target) (sOk gOk ca : Bool) (st : MState),
      processTarget c i t (some "") sOk gOk ca st =
        processTarget c i t none sOk gOk ca st) :=
  ⟨fun _ _ => rfl, fun _ _ _ _ _ _ _ => rfl⟩
